import Mathlib

/-!
Shallow embedding of the SE_PERMIT_V2 drilling-permit ingestion pipeline
(`src/app.py` and `src/ingest_job.py`) and proofs of the spec claims.

Cell values are modelled by `Value` (pandas NA/NaT collapse to `Value.na`,
calendar dates are day numbers), a pandas `DataFrame` by a row count plus an
ordered association list of named columns.  External library calls
(`pd.to_datetime`'s string parser, `requests.get`, `json.loads`,
`pd.read_csv`, the current date) are parameters of the embedded functions;
the pipeline logic itself is translated line by line from the source.
-/

/-- A cell value.  `na` stands for every pandas missing value
(`pd.NA`, `NaN`, `NaT`); `date` is a calendar date as an integer day
number; `int` carries numeric cells (e.g. the derived `days_to_expiry`);
`bool` carries JSON booleans; `pyObj` is an opaque non-scalar Python
object stored in a cell (e.g. a JSON list), identified by its
serialization — no claim inspects the inside of such a cell. -/
inductive Value where
  | na : Value
  | str : String → Value
  | int : Int → Value
  | date : Int → Value
  | bool : Bool → Value
  | pyObj : String → Value
deriving DecidableEq, Repr

def Value.isna : Value → Bool
  | .na => true
  | _ => false

/-- A pandas DataFrame: a row count (the index length) and an ordered list
of named columns.  Well-formed frames have every column of length `nrows`. -/
structure DataFrame where
  nrows : Nat
  columns : List (String × List Value)
deriving DecidableEq, Repr

instance : Inhabited DataFrame := ⟨⟨0, []⟩⟩

/-- First-match association lookup (Python dict / pandas column access). -/
def alookup {α β : Type} [DecidableEq α] : List (α × β) → α → Option β
  | [], _ => none
  | c :: t, n => if c.1 = n then some c.2 else alookup t n

def DataFrame.colNames (df : DataFrame) : List String :=
  df.columns.map Prod.fst

/-- The values of column `name` (first occurrence), or `[]` if absent. -/
def DataFrame.getColD (df : DataFrame) (name : String) : List Value :=
  match alookup df.columns name with
  | some vs => vs
  | none => []

/-- Column assignment `df[name] = vals`: replace the column in place when the
name exists, append it at the end otherwise (pandas `__setitem__`). -/
def DataFrame.setCol (df : DataFrame) (name : String) (vals : List Value) :
    DataFrame :=
  if name ∈ df.colNames then
    { df with columns :=
        df.columns.map (fun c => if c.1 = name then (name, vals) else c) }
  else
    { df with columns := df.columns ++ [(name, vals)] }

/-- Every column holds exactly `nrows` values. -/
def DataFrame.WF (df : DataFrame) : Prop :=
  ∀ c ∈ df.columns, c.2.length = df.nrows

/-- `str.lower()` (ASCII, as the alias keys and headers in scope). -/
def pyLower (s : String) : String := String.mk (s.data.map Char.toLower)

def stripLeading (l : List Char) : List Char := l.dropWhile Char.isWhitespace

/-- `str.strip()`: drop leading and trailing whitespace. -/
def pyStrip (s : String) : String :=
  String.mk ((stripLeading ((stripLeading s.data).reverse)).reverse)

/-- `candidate.lower().strip()` — the normalisation both files apply to
column names before comparing them. -/
def pyNorm (s : String) : String := pyStrip (pyLower s)

/-- `"json" in content_type` — Python substring membership. -/
def containsSub (hay sub : List Char) : Bool :=
  match hay with
  | [] => sub.isEmpty
  | _ :: t => sub.isPrefixOf hay || containsSub t sub

def strContains (s sub : String) : Bool := containsSub s.data sub.data

/-- `REQUIRED_COLUMNS` (app.py:12, ingest_job.py:10). -/
def REQUIRED_COLUMNS : List String :=
  ["permit_id", "state", "operator", "county_parish", "well_name",
   "permit_type", "status", "application_date", "approval_date",
   "expiration_date"]

/-- `COLUMN_ALIASES` (app.py:33, ingest_job.py:23), in insertion order. -/
def COLUMN_ALIASES : List (String × List String) :=
  [("permit_id", ["permit_id", "permit_number", "permit_no", "api_number", "api"]),
   ("state", ["state", "jurisdiction"]),
   ("operator", ["operator", "operator_name", "company", "organization"]),
   ("county_parish", ["county_parish", "county", "parish", "location"]),
   ("well_name", ["well_name", "well", "wellbore_name", "lease_well_name"]),
   ("permit_type", ["permit_type", "well_type", "drill_type", "permit_category"]),
   ("status", ["status", "permit_status", "approval_status"]),
   ("application_date", ["application_date", "application_dt", "filed_date", "submitted_date"]),
   ("approval_date", ["approval_date", "approved_date", "approval_dt", "issue_date"]),
   ("expiration_date", ["expiration_date", "expiry_date", "expiration_dt", "expires_on"])]

/-- The dict comprehension `{c.lower().strip(): c for c in df.columns}`:
for a normalised key, the *last* column with that key wins. -/
def lookupNormColumn (cols : List String) (key : String) : Option String :=
  (cols.filter (fun c => pyNorm c = key)).getLast?

/-- `_find_alias_column` (app.py:102, ingest_job.py:37): the first candidate
whose lowercased, stripped form matches some input column's lowercased,
stripped form; returns the matching original column name. -/
def find_alias_column (df : DataFrame) (candidates : List String) :
    Option String :=
  candidates.findSome? (fun cand => lookupNormColumn df.colNames (pyNorm cand))

/-- `fillna(v)` on one cell. -/
def fillna (v : Value) (x : Value) : Value := if x.isna then v else x

/-- `out[col] = out[col].fillna(v)`. -/
def fillnaCol (df : DataFrame) (name : String) (v : Value) : DataFrame :=
  df.setCol name ((df.getColD name).map (fillna v))

/-- Python `f"{n:06d}"` for `n ≥ 0`. -/
def pad6 (n : Nat) : String :=
  let s := toString n
  String.mk (List.replicate (6 - s.length) '0') ++ s

/-- The synthesized identifier list
`[f"{fallback_state}-AUTO-{i+1:06d}" for i in range(len(out))]`. -/
def autoIds (fallback_state : String) (n : Nat) : List Value :=
  (List.range n).map (fun i => .str (fallback_state ++ "-AUTO-" ++ pad6 (i + 1)))

/-- The right-hand side `df[source_col] if source_col is not None else pd.NA`
of one loop iteration: the aliased source column, or a whole column of
`pd.NA` broadcast over the index. -/
def resolveOne (df : DataFrame) (aliases : List String) : List Value :=
  match find_alias_column df aliases with
  | some src => df.getColD src
  | none => List.replicate df.nrows .na

/-- The alias-resolution loop shared by both harmonizers
(app.py:112-115, ingest_job.py:46-49): start from
`out = pd.DataFrame(index=df.index)` and assign each canonical target
column in `COLUMN_ALIASES` order. -/
def resolveAliases (df : DataFrame) : DataFrame :=
  COLUMN_ALIASES.foldl (fun acc p => acc.setCol p.1 (resolveOne df p.2))
    { nrows := df.nrows, columns := [] }

/-- The six fallback-default assignments shared by both harmonizers
(app.py:117-122; ingest_job.py:50-58 applies the same pairs in the same
order, `state` first and then the dict loop). -/
def applyFallbacks (out : DataFrame) (fallback_state : String) : DataFrame :=
  let out := fillnaCol out "state" (.str fallback_state)
  let out := fillnaCol out "status" (.str "Pending")
  let out := fillnaCol out "permit_type" (.str "Unknown")
  let out := fillnaCol out "operator" (.str "Unknown Operator")
  let out := fillnaCol out "county_parish" (.str "Unknown")
  fillnaCol out "well_name" (.str "Unknown Well")

/-- The all-or-nothing identifier synthesis shared by both harmonizers
(app.py:124-125, ingest_job.py:59-60). -/
def applySynthesis (out : DataFrame) (fallback_state : String) : DataFrame :=
  if ((out.getColD "permit_id").all Value.isna) then
    out.setCol "permit_id" (autoIds fallback_state out.nrows)
  else
    out

/-- `harmonize_schema` (app.py:111-127). -/
def harmonize_schema (df : DataFrame) (fallback_state : String) : DataFrame :=
  applySynthesis (applyFallbacks (resolveAliases df) fallback_state)
    fallback_state

/-- `pd.to_datetime(·, errors="coerce")` on one cell, parametrised by the
pandas date-string parser `parse`: dates pass through, parse failures and
missing values coerce to null, nothing raises. -/
def coerceDate (parse : String → Option Int) : Value → Value
  | .na => .na
  | .str s =>
      match parse s with
      | some d => .date d
      | none => .na
  | .date d => .date d
  | _ => .na

namespace IngestJob

/-- `harmonize_schema` (ingest_job.py:45-64): alias resolution, the same
fallback defaults and identifier synthesis, then in-place date coercion of
the three date columns and a broadcast `ingested_at_utc` stamp
(`datetime.now(timezone.utc)` is the parameter `now`). -/
def harmonize_schema (parse : String → Option Int) (now : Value)
    (df : DataFrame) (fallback_state : String) : DataFrame :=
  let out := applySynthesis (applyFallbacks (resolveAliases df) fallback_state)
    fallback_state
  let out := ["application_date", "approval_date", "expiration_date"].foldl
    (fun acc c => acc.setCol c ((acc.getColD c).map (coerceDate parse))) out
  out.setCol "ingested_at_utc" (List.replicate out.nrows now)

end IngestJob

/-! ## Content decoder (`_response_to_dataframe`; identical copies at
app.py:130-141 and ingest_job.py:67-78) -/

/-- A JSON value as produced by `json.loads` (numbers restricted to
integers; no claim involves fractional numbers). -/
inductive Json where
  | null : Json
  | bool : Bool → Json
  | num : Int → Json
  | str : String → Json
  | arr : List Json → Json
  | obj : List (String × Json) → Json
deriving Repr, Inhabited

mutual

/-- A canonical serialization, used only to tag opaque non-scalar cells. -/
def Json.ser : Json → String
  | .null => "null"
  | .bool b => if b then "true" else "false"
  | .num n => toString n
  | .str s => "\"" ++ s ++ "\""
  | .arr l => "[" ++ Json.serList l ++ "]"
  | .obj l => "\x7b" ++ Json.serFields l ++ "\x7d"

def Json.serList : List Json → String
  | [] => ""
  | [j] => Json.ser j
  | j :: rest => Json.ser j ++ "," ++ Json.serList rest

def Json.serFields : List (String × Json) → String
  | [] => ""
  | [(k, j)] => "\"" ++ k ++ "\":" ++ Json.ser j
  | (k, j) :: rest => "\"" ++ k ++ "\":" ++ Json.ser j ++ "," ++ Json.serFields rest

end

/-- A scalar JSON value in a DataFrame cell (JSON `null` is missing). -/
def cellOfJson : Json → Value
  | .null => .na
  | .bool b => .bool b
  | .num n => .int n
  | .str s => .str s
  | j => .pyObj (Json.ser j)

mutual

/-- `pd.json_normalize` flattening of one record: nested mappings become
dotted column names; every other value is a leaf. -/
def flattenFields (pre : String) : List (String × Json) → List (String × Json)
  | [] => []
  | (k, v) :: rest =>
      let key := if pre = "" then k else pre ++ "." ++ k
      flattenVal key v ++ flattenFields pre rest

def flattenVal (key : String) : Json → List (String × Json)
  | .obj fields => flattenFields key fields
  | j => [(key, j)]

end

/-- Column names of a normalized record list: flattened keys in order of
first appearance, scanning records in order. -/
def normalizeKeys (records : List (List (String × Json))) : List String :=
  records.foldl
    (fun ks r => ks ++ ((r.map Prod.fst).filter (fun k => ¬ (ks.contains k))))
    []

/-- The record sequence as flattened field lists, or `none` at the first
element that is not a mapping (pandas raises there). -/
def decodeRecords : List Json → Option (List (List (String × Json)))
  | [] => some []
  | j :: rest =>
      match j with
      | Json.obj fields =>
          match decodeRecords rest with
          | some rs => some (flattenFields "" fields :: rs)
          | none => none
      | _ => none

/-- `pd.json_normalize(payload)` on a list: every element must be a
mapping (pandas raises otherwise); one row per record, one column per
flattened key, missing keys become null. -/
def json_normalize (elems : List Json) : Except String DataFrame :=
  match decodeRecords elems with
  | none => .error "json_normalize: list elements must be mappings"
  | some records =>
      let keys := normalizeKeys records
      .ok { nrows := records.length,
            columns := keys.map (fun k =>
              (k, records.map (fun r =>
                match alookup r k with
                | some j => cellOfJson j
                | none => .na))) }

/-- `pd.DataFrame(payload)` on a non-list payload.  A mapping is read
column-oriented: sequence values become columns (all of one length),
scalar values broadcast to that length; a mapping whose values are all
scalars raises, as does any non-mapping scalar payload.  Mapping-valued
entries (pandas would align them as Series by key) are outside the model
and also reported as errors; no claim exercises them. -/
def pdDataFrameObj (fields : List (String × Json)) :
    Except String DataFrame :=
  if fields.any (fun kv => match kv.2 with | .obj _ => true | _ => false) then
    .error "DataFrame: mapping-valued entries are outside the model"
  else
    match (fields.filterMap (fun kv => match kv.2 with
      | .arr l => some l.length
      | _ => none)).head? with
    | none => .error "If using all scalar values, you must pass an index"
    | some n =>
        if fields.all (fun kv => match kv.2 with
          | .arr l => l.length = n
          | _ => true) then
          .ok { nrows := n,
                columns := fields.map (fun kv =>
                  (kv.1, match kv.2 with
                    | .arr l => l.map cellOfJson
                    | j => List.replicate n (cellOfJson j))) }
        else .error "All arrays must be of the same length"

def pdDataFrame : Json → Except String DataFrame
  | .obj fields => pdDataFrameObj fields
  | _ => .error "DataFrame constructor not properly called"

/-- The wrapper-key priority list (app.py:134, ingest_job.py:71). -/
def WRAPPER_KEYS : List String := ["data", "results", "features", "items"]

/-- The unwrap loop: on a mapping, descend into the value of the first
present wrapper key and stop; otherwise leave the payload as is. -/
def unwrapPayload : Json → Json
  | .obj fields =>
      match WRAPPER_KEYS.findSome? (fun k => alookup fields k) with
      | some v => v
      | none => .obj fields
  | j => j

/-- `_response_to_dataframe` (app.py:130-141, ingest_job.py:67-78).
`jsonLoads` stands for `complexjson.loads(content.decode("utf-8"))` and
`readCsv` for `pd.read_csv(io.BytesIO(content))`; both may fail. -/
def response_to_dataframe (jsonLoads : List Nat → Except String Json)
    (readCsv : List Nat → Except String DataFrame)
    (content : List Nat) (content_type : String) : Except String DataFrame :=
  if strContains content_type "json" then
    match jsonLoads content with
    | .error e => .error e
    | .ok payload =>
        match unwrapPayload payload with
        | .arr elems => json_normalize elems
        | p => pdDataFrame p
  else
    readCsv content

/-! ## Normalization & metrics stage (app.py:154-162, 256-270) -/

/-- `validate_dataframe` (app.py:154-156): the required column names not
present in the frame, paired with `len(missing) == 0`. -/
def validate_dataframe (df : DataFrame) : Bool × List String :=
  let missing := REQUIRED_COLUMNS.filter (fun c => !(df.colNames.contains c))
  (missing.isEmpty, missing)

def DATE_COLS : List String :=
  ["application_date", "approval_date", "expiration_date"]

/-- One statement `df[col] = pd.to_datetime(df[col], errors="coerce")` of
`normalize_dates` (app.py:160-161).  Reading `df[col]` on a frame without
that column raises an (uncaught) `KeyError`, reported as the error value;
otherwise the column is coerced cell by cell. -/
def normalize_dates_step (parse : String → Option Int) (acc : DataFrame)
    (c : String) : Except String DataFrame :=
  if acc.colNames.contains c then
    .ok (acc.setCol c ((acc.getColD c).map (coerceDate parse)))
  else
    .error c

/-- The value returned by `normalize_dates` (app.py:159-162), or the column
name of the `KeyError` the loop raises.  The Python function performs the
assignments on its argument object in place and returns that same object;
`normalize_dates_call` below models the heap effect. -/
def normalize_dates (parse : String → Option Int) (df : DataFrame) :
    Except String DataFrame :=
  DATE_COLS.foldlM (normalize_dates_step parse) df

/-- A heap of Python DataFrame objects; references are list positions. -/
structure PyHeap where
  store : List DataFrame
deriving DecidableEq, Repr

def PyHeap.get (h : PyHeap) (r : Nat) : DataFrame := h.store.getD r default

def PyHeap.set (h : PyHeap) (r : Nat) (df : DataFrame) : PyHeap :=
  ⟨h.store.set r df⟩

/-- The `for` loop of `normalize_dates` run statement by statement on the
object at reference `r`; each successful assignment mutates that object in
place, and a `KeyError` escapes with the earlier mutations retained. -/
def normalize_dates_go (parse : String → Option Int) (r : Nat) :
    List String → PyHeap → PyHeap × Except String Nat
  | [], h => (h, .ok r)
  | c :: rest, h =>
      match normalize_dates_step parse (h.get r) c with
      | .ok df => normalize_dates_go parse r rest (h.set r df)
      | .error e => (h, .error e)

/-- Calling `normalize_dates(df)` on the object at reference `r`: on
success the function returns the same reference `r`, whose object now
holds the coerced columns. -/
def normalize_dates_call (parse : String → Option Int) (h : PyHeap)
    (r : Nat) : PyHeap × Except String Nat :=
  normalize_dates_go parse r DATE_COLS h

/-- One cell of `(data["expiration_date"] - today).dt.days`: a date minus
`today` in whole days, anything missing giving null. -/
def daysToExpiryVal (today : Int) : Value → Value
  | .date d => .int (d - today)
  | _ => .na

/-- `data["days_to_expiry"] = (data["expiration_date"] - today).dt.days`
(app.py:269-270); `today` is `pd.Timestamp.today().normalize()` as a day
number. -/
def add_days_to_expiry (df : DataFrame) (today : Int) : DataFrame :=
  df.setCol "days_to_expiry"
    ((df.getColD "expiration_date").map (daysToExpiryVal today))

/-- How a run of the app.py:256-270 script can end short of the metric:
an uncaught `KeyError` escaping `normalize_dates`, or the
`st.error` + `st.stop()` halt listing the missing canonical columns. -/
inductive RunError where
  | keyError (col : String)
  | schemaError (missing : List String)
deriving DecidableEq, Repr

/-- The top-level script from app.py:256-270 on a loaded batch: normalize
dates (line 256), validate (line 257), and on invalid data `st.error` +
`st.stop()` halt the run with the missing-column list before any metric is
computed; otherwise normalize again (line 267) and compute
`days_to_expiry` (lines 269-270). -/
def run_pipeline (parse : String → Option Int) (today : Int)
    (data : DataFrame) : Except RunError DataFrame :=
  match normalize_dates parse data with
  | .error c => .error (.keyError c)
  | .ok data =>
      let v := validate_dataframe data
      if v.1 then
        match normalize_dates parse data with
        | .error c => .error (.keyError c)
        | .ok data2 => .ok (add_days_to_expiry data2 today)
      else
        .error (.schemaError v.2)

/-! ## Ingestion coordinator (`load_live_data`, app.py:165-182).
`fetch url state` stands for `fetch_remote_permits(url, state)`: either a
harmonized batch or the raised exception's message. -/

/-- One iteration of the `for state, url in [("TX", tx_url), ("LA", la_url)]`
loop: skip-and-record on empty URL, try/except-and-record around the fetch,
append to `frames` on success. -/
def load_live_step (fetch : String → String → Except String DataFrame)
    (acc : List DataFrame × List String) (s : String × String) :
    List DataFrame × List String :=
  if s.2 = "" then
    (acc.1, acc.2 ++ [s.1 ++ " source URL is empty."])
  else
    match fetch s.2 s.1 with
    | .ok df => (acc.1 ++ [df], acc.2)
    | .error e => (acc.1, acc.2 ++ [s.1 ++ " fetch failed: " ++ e])

/-- `pd.DataFrame(columns=REQUIRED_COLUMNS)`: ten columns, zero rows. -/
def emptyRequiredFrame : DataFrame :=
  ⟨0, REQUIRED_COLUMNS.map (fun c => (c, []))⟩

/-- `pd.concat(frames, ignore_index=True)`, modelled for frames sharing one
column set — which every harmonized fetch result does. -/
def concatFrames : List DataFrame → DataFrame
  | [] => default
  | d0 :: rest =>
      { nrows := ((d0 :: rest).map (fun d => d.nrows)).sum,
        columns := d0.colNames.map (fun n =>
          (n, ((d0 :: rest).map (fun d => d.getColD n)).flatten)) }

/-- `load_live_data` (app.py:165-182). -/
def load_live_data (fetch : String → String → Except String DataFrame)
    (tx_url la_url : String) : DataFrame × List String :=
  let fi := [("TX", tx_url), ("LA", la_url)].foldl (load_live_step fetch) ([], [])
  if fi.1.isEmpty then
    (emptyRequiredFrame, fi.2)
  else
    (concatFrames fi.1, fi.2)

/-- Modelled from the spec (§4.4): the single ingestion issue one source
contributes, independent of every other source. -/
def sourceIssue (fetch : String → String → Except String DataFrame)
    (s : String × String) : Option String :=
  if s.2 = "" then some (s.1 ++ " source URL is empty.")
  else
    match fetch s.2 s.1 with
    | .ok _ => none
    | .error e => some (s.1 ++ " fetch failed: " ++ e)

/-- Modelled from the spec (§4.4): the successful batch one source
contributes, independent of every other source. -/
def sourceBatch (fetch : String → String → Except String DataFrame)
    (s : String × String) : Option DataFrame :=
  if s.2 = "" then none
  else
    match fetch s.2 s.1 with
    | .ok df => some df
    | .error _ => none

/-! ## Source fetcher cache (`fetch_remote_permits`, app.py:144-151, and
its `st.cache_data(ttl=60*60)` memoization; `.clear()` at app.py:239-240) -/

/-- An HTTP response: status code, `Content-Type` header, body bytes. -/
structure Response where
  status : Nat
  contentType : String
  content : List Nat

/-- The `st.cache_data` state for `fetch_remote_permits`, plus a log of the
URLs passed to `requests.get` (one entry per network call). -/
structure CacheState where
  entries : List ((String × String) × (Nat × DataFrame))
  calls : List String

def CACHE_TTL : Nat := 60 * 60

/-- The body of `fetch_remote_permits` (app.py:146-151), run on a cache
miss: line 146 and line 147 each issue a `requests.get(url, ...)` network
call (the first response is discarded), then `raise_for_status`, decode,
harmonize; only a successful result is cached. -/
def fetch_body (net : String → Response)
    (jsonLoads : List Nat → Except String Json)
    (readCsv : List Nat → Except String DataFrame)
    (s : CacheState) (now : Nat) (url state : String) :
    CacheState × Except String DataFrame :=
  let s := { s with calls := s.calls ++ [url, url] }
  let resp := net url
  if 400 ≤ resp.status then
    (s, .error ("HTTP " ++ toString resp.status))
  else
    match response_to_dataframe jsonLoads readCsv resp.content
        (pyLower resp.contentType) with
    | .error e => (s, .error e)
    | .ok raw =>
        let v := harmonize_schema raw state
        ({ entries := ((url, state), (now, v)) :: s.entries, calls := s.calls },
         .ok v)

/-- `fetch_remote_permits(url, state)` under `st.cache_data(ttl=3600)`:
a cached value younger than the TTL is returned without touching the
network; otherwise the body runs. -/
def fetch_remote_permits (net : String → Response)
    (jsonLoads : List Nat → Except String Json)
    (readCsv : List Nat → Except String DataFrame)
    (s : CacheState) (now : Nat) (url state : String) :
    CacheState × Except String DataFrame :=
  match alookup s.entries (url, state) with
  | some (t, v) =>
      if now < t + CACHE_TTL then (s, .ok v)
      else fetch_body net jsonLoads readCsv s now url state
  | none => fetch_body net jsonLoads readCsv s now url state

/-- `fetch_remote_permits.clear()` (app.py:240): whole-cache invalidation. -/
def fetch_remote_permits_clear (s : CacheState) : CacheState :=
  { s with entries := [] }

/-! ## Structural lemmas about the DataFrame model -/

theorem nrows_setCol (df : DataFrame) (n : String) (vs : List Value) :
    (df.setCol n vs).nrows = df.nrows := by
  unfold DataFrame.setCol
  split <;> rfl

theorem nrows_fillnaCol (df : DataFrame) (n : String) (v : Value) :
    (fillnaCol df n v).nrows = df.nrows := by
  unfold fillnaCol
  exact nrows_setCol ..

theorem alookup_replace_self (n : String) (vs : List Value)
    (l : List (String × List Value)) (h : n ∈ l.map Prod.fst) :
    alookup (l.map (fun c => if c.1 = n then (n, vs) else c)) n = some vs := by
  induction l with
  | nil => simp at h
  | cons c t ih =>
      by_cases hc : c.1 = n
      · simp [alookup, hc]
      · have hm : n ∈ t.map Prod.fst := by
          simp only [List.map_cons, List.mem_cons] at h
          rcases h with h1 | h1
          · exact absurd h1.symm hc
          · exact h1
        simp [alookup, hc, ih hm]

theorem alookup_append_fresh (n : String) (vs : List Value)
    (l : List (String × List Value)) (h : n ∉ l.map Prod.fst) :
    alookup (l ++ [(n, vs)]) n = some vs := by
  induction l with
  | nil => simp [alookup]
  | cons c t ih =>
      have hc : ¬ c.1 = n := fun e => h (by simp [e])
      have ht : n ∉ t.map Prod.fst := fun e => h (by simp [e])
      simp [alookup, hc, ih ht]

theorem alookup_replace_ne (n m : String) (vs : List Value)
    (l : List (String × List Value)) (h : ¬ m = n) :
    alookup (l.map (fun c => if c.1 = n then (n, vs) else c)) m =
      alookup l m := by
  induction l with
  | nil => rfl
  | cons c t ih =>
      by_cases hc : c.1 = n
      · have hcm : ¬ n = m := fun e => h e.symm
        have hcm2 : ¬ c.1 = m := by rw [hc]; exact hcm
        simp [alookup, hc, hcm, hcm2, ih]
      · by_cases hcm : c.1 = m
        · simp [alookup, hc, hcm, h]
        · simp [alookup, hc, hcm, ih]

theorem alookup_append_ne (n m : String) (vs : List Value)
    (l : List (String × List Value)) (h : ¬ m = n) :
    alookup (l ++ [(n, vs)]) m = alookup l m := by
  induction l with
  | nil =>
      have hm : ¬ n = m := fun e => h e.symm
      simp [alookup, hm]
  | cons c t ih =>
      by_cases hcm : c.1 = m
      · simp [alookup, hcm]
      · simp [alookup, hcm, ih]

theorem colNames_setCol (df : DataFrame) (n : String) (vs : List Value) :
    (df.setCol n vs).colNames =
      if n ∈ df.colNames then df.colNames else df.colNames ++ [n] := by
  unfold DataFrame.setCol DataFrame.colNames
  by_cases h : n ∈ df.columns.map Prod.fst
  · rw [if_pos h, if_pos h]
    simp only [List.map_map]
    refine List.map_congr_left (fun c _ => ?_)
    by_cases hc : c.1 = n
    · simp [hc, Function.comp]
    · simp [hc, Function.comp]
  · rw [if_neg h, if_neg h]
    simp

theorem getColD_setCol_self (df : DataFrame) (n : String) (vs : List Value) :
    (df.setCol n vs).getColD n = vs := by
  unfold DataFrame.setCol
  by_cases h : n ∈ df.colNames
  · rw [if_pos h]
    show (match alookup (df.columns.map
        (fun c => if c.1 = n then (n, vs) else c)) n with
      | some vs => vs | none => []) = vs
    rw [alookup_replace_self n vs df.columns h]
  · rw [if_neg h]
    show (match alookup (df.columns ++ [(n, vs)]) n with
      | some vs => vs | none => []) = vs
    rw [alookup_append_fresh n vs df.columns h]

theorem getColD_setCol_ne (df : DataFrame) (n m : String) (vs : List Value)
    (h : ¬ m = n) : (df.setCol n vs).getColD m = df.getColD m := by
  unfold DataFrame.setCol
  by_cases hm : n ∈ df.colNames
  · rw [if_pos hm]
    show (match alookup (df.columns.map
        (fun c => if c.1 = n then (n, vs) else c)) m with
      | some vs => vs | none => []) = df.getColD m
    rw [alookup_replace_ne n m vs df.columns h]
    rfl
  · rw [if_neg hm]
    show (match alookup (df.columns ++ [(n, vs)]) m with
      | some vs => vs | none => []) = df.getColD m
    rw [alookup_append_ne n m vs df.columns h]
    rfl

theorem nrows_resolve_foldl (df : DataFrame) (l : List (String × List String)) :
    ∀ acc : DataFrame,
      (l.foldl (fun a p => a.setCol p.1 (resolveOne df p.2)) acc).nrows =
        acc.nrows := by
  induction l with
  | nil => intro acc; rfl
  | cons p t ih =>
      intro acc
      rw [List.foldl_cons, ih, nrows_setCol]

theorem colNames_resolve_foldl (df : DataFrame) (l : List (String × List String)) :
    ∀ acc : DataFrame,
      (l.foldl (fun a p => a.setCol p.1 (resolveOne df p.2)) acc).colNames =
        l.foldl (fun ns p => if p.1 ∈ ns then ns else ns ++ [p.1]) acc.colNames := by
  induction l with
  | nil => intro acc; rfl
  | cons p t ih =>
      intro acc
      rw [List.foldl_cons, List.foldl_cons, ih, colNames_setCol]

theorem nrows_resolveAliases (df : DataFrame) :
    (resolveAliases df).nrows = df.nrows :=
  nrows_resolve_foldl df COLUMN_ALIASES _

theorem colNames_resolveAliases (df : DataFrame) :
    (resolveAliases df).colNames = REQUIRED_COLUMNS := by
  unfold resolveAliases
  rw [colNames_resolve_foldl]
  have h0 : ({ nrows := df.nrows, columns := [] } : DataFrame).colNames = [] :=
    rfl
  rw [h0]
  decide

theorem getColD_fillnaCol_self (df : DataFrame) (n : String) (v : Value) :
    (fillnaCol df n v).getColD n = (df.getColD n).map (fillna v) := by
  unfold fillnaCol
  exact getColD_setCol_self ..

theorem getColD_fillnaCol_ne (df : DataFrame) (n m : String) (v : Value)
    (h : ¬ m = n) : (fillnaCol df n v).getColD m = df.getColD m := by
  unfold fillnaCol
  exact getColD_setCol_ne _ _ _ _ h

theorem colNames_fillnaCol (df : DataFrame) (n : String) (v : Value) :
    (fillnaCol df n v).colNames =
      if n ∈ df.colNames then df.colNames else df.colNames ++ [n] :=
  colNames_setCol ..

theorem colNames_fillnaCol_req (df : DataFrame) (n : String) (v : Value)
    (h : df.colNames = REQUIRED_COLUMNS) (hn : n ∈ REQUIRED_COLUMNS) :
    (fillnaCol df n v).colNames = REQUIRED_COLUMNS := by
  rw [colNames_fillnaCol, h, if_pos hn]

theorem colNames_setCol_req (df : DataFrame) (n : String) (vs : List Value)
    (h : df.colNames = REQUIRED_COLUMNS) (hn : n ∈ REQUIRED_COLUMNS) :
    (df.setCol n vs).colNames = REQUIRED_COLUMNS := by
  rw [colNames_setCol, h, if_pos hn]

theorem nrows_applyFallbacks (out : DataFrame) (fb : String) :
    (applyFallbacks out fb).nrows = out.nrows := by
  unfold applyFallbacks
  dsimp only
  simp only [nrows_fillnaCol]

theorem nrows_applySynthesis (out : DataFrame) (fb : String) :
    (applySynthesis out fb).nrows = out.nrows := by
  unfold applySynthesis
  split <;> simp only [nrows_setCol]

theorem colNames_applyFallbacks_req (out : DataFrame) (fb : String)
    (h : out.colNames = REQUIRED_COLUMNS) :
    (applyFallbacks out fb).colNames = REQUIRED_COLUMNS := by
  unfold applyFallbacks
  dsimp only
  have h1 := colNames_fillnaCol_req out "state" (.str fb) h (by decide)
  have h2 := colNames_fillnaCol_req _ "status" (.str "Pending") h1 (by decide)
  have h3 := colNames_fillnaCol_req _ "permit_type" (.str "Unknown") h2 (by decide)
  have h4 := colNames_fillnaCol_req _ "operator" (.str "Unknown Operator") h3
    (by decide)
  have h5 := colNames_fillnaCol_req _ "county_parish" (.str "Unknown") h4
    (by decide)
  exact colNames_fillnaCol_req _ "well_name" (.str "Unknown Well") h5 (by decide)

theorem colNames_applySynthesis_req (out : DataFrame) (fb : String)
    (h : out.colNames = REQUIRED_COLUMNS) :
    (applySynthesis out fb).colNames = REQUIRED_COLUMNS := by
  unfold applySynthesis
  split
  · exact colNames_setCol_req _ _ _ h (by decide)
  · exact h

theorem nrows_harmonize_schema (df : DataFrame) (fb : String) :
    (harmonize_schema df fb).nrows = df.nrows := by
  unfold harmonize_schema
  rw [nrows_applySynthesis, nrows_applyFallbacks, nrows_resolveAliases]

theorem colNames_harmonize_schema (df : DataFrame) (fb : String) :
    (harmonize_schema df fb).colNames = REQUIRED_COLUMNS := by
  unfold harmonize_schema
  exact colNames_applySynthesis_req _ _
    (colNames_applyFallbacks_req _ _ (colNames_resolveAliases df))

theorem colNames_ingest_harmonize (parse : String → Option Int) (now : Value)
    (df : DataFrame) (fb : String) :
    (IngestJob.harmonize_schema parse now df fb).colNames =
      REQUIRED_COLUMNS ++ ["ingested_at_utc"] := by
  unfold IngestJob.harmonize_schema
  dsimp only
  have h0 := colNames_applySynthesis_req _ fb
    (colNames_applyFallbacks_req _ fb (colNames_resolveAliases df))
  simp only [List.foldl_cons, List.foldl_nil, colNames_setCol, h0]
  decide

/-! ## Claim C1 -/

/-- **C1, counterexample.**  The claim fails for the batch-ingestion
harmonizer: on a concrete one-row input, `ingest_job.py`'s
`harmonize_schema` returns eleven columns — the ten canonical ones plus
`ingested_at_utc` — so its column set is not exactly the ten canonical
columns. -/
theorem C1_counterexample :
    (IngestJob.harmonize_schema (fun _ => none) (.date 20000)
        ⟨1, [("permit_number", [.str "P1"])]⟩ "TX").colNames =
      REQUIRED_COLUMNS ++ ["ingested_at_utc"] ∧
    ¬ (IngestJob.harmonize_schema (fun _ => none) (.date 20000)
        ⟨1, [("permit_number", [.str "P1"])]⟩ "TX").colNames =
      REQUIRED_COLUMNS := by
  constructor
  · decide
  · decide

/-- **C1 (amended).**  For every input table, the interactive harmonizer
(`app.py`'s `harmonize_schema`) returns exactly the ten canonical columns,
regardless of the input's column names or count; the batch-ingestion
harmonizer (`ingest_job.py`'s `harmonize_schema`) returns the ten
canonical columns plus exactly one extra column, the `ingested_at_utc`
timestamp stamp.  In both, all ten canonical columns are always present. -/
theorem C1_amended :
    (∀ (df : DataFrame) (fb : String),
      (harmonize_schema df fb).colNames = REQUIRED_COLUMNS) ∧
    (∀ (parse : String → Option Int) (now : Value) (df : DataFrame)
        (fb : String),
      (IngestJob.harmonize_schema parse now df fb).colNames =
        REQUIRED_COLUMNS ++ ["ingested_at_utc"]) :=
  ⟨colNames_harmonize_schema, colNames_ingest_harmonize⟩

theorem getColD_resolveAliases (df : DataFrame) (tc : String)
    (al : List String) (h : (tc, al) ∈ COLUMN_ALIASES) :
    (resolveAliases df).getColD tc = resolveOne df al := by
  unfold resolveAliases
  simp only [COLUMN_ALIASES, List.mem_cons, List.not_mem_nil, or_false,
    Prod.mk.injEq] at h
  simp only [COLUMN_ALIASES, List.foldl_cons, List.foldl_nil]
  obtain h10 | h10 | h10 | h10 | h10 | h10 | h10 | h10 | h10 | h10 := h <;>
    (obtain ⟨rfl, rfl⟩ := h10
     simp (disch := decide) only [getColD_setCol_ne, getColD_setCol_self])

theorem getColD_applyFallbacks_permit (out : DataFrame) (fb : String) :
    (applyFallbacks out fb).getColD "permit_id" = out.getColD "permit_id" := by
  unfold applyFallbacks
  dsimp only
  simp (disch := decide) only [getColD_fillnaCol_ne]

theorem getColD_applySynthesis_permit (out : DataFrame) (fb : String) :
    (applySynthesis out fb).getColD "permit_id" =
      if (out.getColD "permit_id").all Value.isna then
        autoIds fb out.nrows
      else out.getColD "permit_id" := by
  unfold applySynthesis
  by_cases h : (out.getColD "permit_id").all Value.isna = true
  · rw [if_pos h, if_pos h, getColD_setCol_self]
  · rw [if_neg h, if_neg h]

/-! ## Claim C2 -/

/-- The `permit_id` column as it stands right after alias resolution
(before fallbacks; the six fallback assignments never touch `permit_id`,
so this is also the column the synthesis guard `out["permit_id"].isna().all()`
inspects). -/
def resolvedPermitIds (df : DataFrame) : List Value :=
  (resolveAliases df).getColD "permit_id"

/-- **C2.**  If after alias resolution no record supplies a non-null
`permit_id`, every output `permit_id` is the synthesized
`{fallback}-AUTO-{i}` (with `i` rendered zero-padded to six digits),
`i` strictly increasing from 1 in input record order; if at least one
record supplies an identifier, the column is returned exactly as resolved —
no synthesis anywhere and individual nulls remain null. -/
theorem C2_identifier_synthesis (df : DataFrame) (fb : String) :
    ((harmonize_schema df fb).getColD "permit_id" =
      if (resolvedPermitIds df).all Value.isna then
        autoIds fb df.nrows
      else
        resolvedPermitIds df) ∧
    ∀ i, i < df.nrows →
      (autoIds fb df.nrows).getD i .na =
        .str (fb ++ "-AUTO-" ++ pad6 (i + 1)) := by
  constructor
  · unfold harmonize_schema resolvedPermitIds
    rw [getColD_applySynthesis_permit, getColD_applyFallbacks_permit,
      nrows_applyFallbacks, nrows_resolveAliases]
  · intro i hi
    simp [autoIds, List.getD_eq_getElem?_getD, List.getElem?_map,
      List.getElem?_range, hi]

/-- **C2, witness.**  The synthesis branch on a two-row batch with no
identifiers at all, and the zero-padded second identifier. -/
theorem C2_identifier_synthesis_witness :
    ((harmonize_schema ⟨2, [("well", [.str "A", .str "B"])]⟩ "TX").getColD
        "permit_id" =
      if (resolvedPermitIds ⟨2, [("well", [.str "A", .str "B"])]⟩).all
          Value.isna then
        autoIds "TX" 2
      else
        resolvedPermitIds ⟨2, [("well", [.str "A", .str "B"])]⟩) ∧
    (1 : Nat) < 2 ∧
    (autoIds "TX" 2).getD 1 .na = .str "TX-AUTO-000002" :=
  ⟨(C2_identifier_synthesis ⟨2, [("well", [.str "A", .str "B"])]⟩ "TX").1,
   by decide,
   (C2_identifier_synthesis ⟨2, [("well", [.str "A", .str "B"])]⟩ "TX").2 1
     (by decide)⟩

/-! ## Claim C9 -/

theorem lookupNormColumn_none (cols : List String) (key : String)
    (h : ∀ col ∈ cols, ¬ pyNorm col = key) :
    lookupNormColumn cols key = none := by
  unfold lookupNormColumn
  rw [List.filter_eq_nil_iff.mpr (fun a ha => by simpa using h a ha)]
  rfl

theorem lookupNormColumn_some_of_mem (cols : List String) (key col : String)
    (hmem : col ∈ cols) (hkey : pyNorm col = key) :
    ∃ chosen, lookupNormColumn cols key = some chosen ∧
      chosen ∈ cols ∧ pyNorm chosen = key := by
  unfold lookupNormColumn
  have hfil : col ∈ cols.filter (fun c => pyNorm c = key) :=
    List.mem_filter.mpr ⟨hmem, by simp [hkey]⟩
  have hne : cols.filter (fun c => pyNorm c = key) ≠ [] :=
    List.ne_nil_of_mem hfil
  obtain ⟨chosen, hch⟩ :=
    Option.isSome_iff_exists.mp (List.getLast?_isSome.mpr hne)
  refine ⟨chosen, hch, ?_, ?_⟩
  · exact (List.mem_filter.mp (List.mem_of_mem_getLast? hch)).1
  · have h2 := (List.mem_filter.mp (List.mem_of_mem_getLast? hch)).2
    simpa using h2

theorem find_alias_column_head_match (df : DataFrame) (cand : String)
    (rest : List String) (col : String) (hmem : col ∈ df.colNames)
    (hkey : pyNorm col = pyNorm cand) :
    ∃ chosen, find_alias_column df (cand :: rest) = some chosen ∧
      chosen ∈ df.colNames ∧ pyNorm chosen = pyNorm cand := by
  obtain ⟨chosen, h1, h2, h3⟩ :=
    lookupNormColumn_some_of_mem df.colNames (pyNorm cand) col hmem hkey
  refine ⟨chosen, ?_, h2, h3⟩
  unfold find_alias_column
  rw [List.findSome?_cons, h1]

theorem find_alias_column_head_skip (df : DataFrame) (cand : String)
    (rest : List String)
    (h : ∀ col ∈ df.colNames, ¬ pyNorm col = pyNorm cand) :
    find_alias_column df (cand :: rest) = find_alias_column df rest := by
  unfold find_alias_column
  rw [List.findSome?_cons, lookupNormColumn_none df.colNames (pyNorm cand) h]

theorem find_alias_column_none (df : DataFrame) (al : List String)
    (h : ∀ cand ∈ al, ∀ col ∈ df.colNames, ¬ pyNorm col = pyNorm cand) :
    find_alias_column df al = none := by
  unfold find_alias_column
  exact List.findSome?_eq_none_iff.mpr (fun cand hc =>
    lookupNormColumn_none df.colNames (pyNorm cand) (h cand hc))

/-- **C9.**  Alias resolution is case- and whitespace-insensitive and
first-match-wins: (1)-(2) a column literally named `"  API_Number "`
resolves to `permit_id` and its values flow through harmonization;
(3) when the head candidate's lowercased, trimmed form matches some input
column's lowercased, trimmed form, that candidate is the one chosen (the
resolved column matches it); (4) a head candidate matching no input column
is skipped in favour of the remaining candidates; (5) if no candidate of a
canonical field matches any input column, that field resolves to null for
every record before fallbacks apply. -/
theorem C9_alias_resolution :
    ((harmonize_schema ⟨1, [("  API_Number ", [.str "42"])]⟩ "TX").getColD
        "permit_id" = [.str "42"]) ∧
    (find_alias_column ⟨1, [("  API_Number ", [.str "42"])]⟩
        ["permit_id", "permit_number", "permit_no", "api_number", "api"] =
      some "  API_Number ") ∧
    (∀ (df : DataFrame) (cand : String) (rest : List String) (col : String),
      col ∈ df.colNames → pyNorm col = pyNorm cand →
      ∃ chosen, find_alias_column df (cand :: rest) = some chosen ∧
        chosen ∈ df.colNames ∧ pyNorm chosen = pyNorm cand) ∧
    (∀ (df : DataFrame) (cand : String) (rest : List String),
      (∀ col ∈ df.colNames, ¬ pyNorm col = pyNorm cand) →
      find_alias_column df (cand :: rest) = find_alias_column df rest) ∧
    (∀ (df : DataFrame) (tc : String) (al : List String),
      (tc, al) ∈ COLUMN_ALIASES →
      (∀ cand ∈ al, ∀ col ∈ df.colNames, ¬ pyNorm col = pyNorm cand) →
      (resolveAliases df).getColD tc = List.replicate df.nrows .na) := by
  refine ⟨by decide, by decide, find_alias_column_head_match,
    find_alias_column_head_skip, ?_⟩
  intro df tc al hmem hnone
  rw [getColD_resolveAliases df tc al hmem]
  unfold resolveOne
  rw [find_alias_column_none df al hnone]

/-- **C9, witness.**  The general parts of `C9_alias_resolution`
instantiated on concrete frames: the head candidate `api_number` matches
the column `"  API_Number "`; the non-matching head `permit_no` is
skipped; a frame whose only column matches no `well_name` alias resolves
`well_name` to two nulls. -/
theorem C9_alias_resolution_witness :
    (∃ chosen, find_alias_column ⟨1, [("  API_Number ", [.str "42"])]⟩
        ("api_number" :: ["api"]) = some chosen ∧
        chosen ∈ (⟨1, [("  API_Number ", [.str "42"])]⟩ : DataFrame).colNames ∧
        pyNorm chosen = pyNorm "api_number") ∧
    (find_alias_column ⟨1, [("  API_Number ", [.str "42"])]⟩
        ("permit_no" :: ["api_number"]) =
      find_alias_column ⟨1, [("  API_Number ", [.str "42"])]⟩ ["api_number"]) ∧
    ((resolveAliases ⟨2, [("frob", [.na, .na])]⟩).getColD "well_name" =
      List.replicate 2 .na) :=
  ⟨C9_alias_resolution.2.2.1 ⟨1, [("  API_Number ", [.str "42"])]⟩
      "api_number" ["api"] "  API_Number " (by decide) (by decide),
   C9_alias_resolution.2.2.2.1 ⟨1, [("  API_Number ", [.str "42"])]⟩
      "permit_no" ["api_number"] (by decide),
   C9_alias_resolution.2.2.2.2 ⟨2, [("frob", [.na, .na])]⟩ "well_name"
      ["well_name", "well", "wellbore_name", "lease_well_name"] (by decide)
      (by decide)⟩

/-! ## Claim C5 -/

/-- **C5.**  The derived `days_to_expiry` column is the `expiration_date`
column mapped cell-wise through "date minus today in whole days": a date
cell `d` yields `d - today`, so a date 15 days in the past yields `-15`
and one 60 days in the future yields `+60`, and a null `expiration_date`
yields a null `days_to_expiry`.  `today` is the current date at call
time — the metric is computed from whatever `today` the caller passes on
this run. -/
theorem C5_days_to_expiry (df : DataFrame) (today : Int) :
    ((add_days_to_expiry df today).getColD "days_to_expiry" =
      (df.getColD "expiration_date").map (daysToExpiryVal today)) ∧
    (∀ d : Int, daysToExpiryVal today (.date d) = .int (d - today)) ∧
    (daysToExpiryVal today (.date (today - 15)) = .int (-15)) ∧
    (daysToExpiryVal today (.date (today + 60)) = .int 60) ∧
    (daysToExpiryVal today .na = .na) := by
  refine ⟨getColD_setCol_self .., fun d => rfl, ?_, ?_, rfl⟩
  · exact congrArg Value.int (by ring)
  · exact congrArg Value.int (by ring)

/-! ## Claim C6 -/

/-- **C6.**  Validation checks exactly that the ten canonical column names
are present, never looking at values: (1) its result depends only on the
column-name list; (2) a batch with all ten canonical columns validates with
an empty missing list; (3) a batch missing exactly `operator` fails with
`operator` as the only missing column; (4) when validation fails, the run
halts with the missing-column list and no derived metric is computed (the
pipeline ends in the `schemaError` halt before `days_to_expiry` exists). -/
theorem C6_validation (parse : String → Option Int) (today : Int)
    (df df2 : DataFrame) :
    (df.colNames = df2.colNames →
      validate_dataframe df = validate_dataframe df2) ∧
    ((∀ c ∈ REQUIRED_COLUMNS, c ∈ df.colNames) →
      validate_dataframe df = (true, [])) ∧
    (¬ "operator" ∈ df.colNames →
      (∀ c ∈ REQUIRED_COLUMNS, ¬ c = "operator" → c ∈ df.colNames) →
      validate_dataframe df = (false, ["operator"])) ∧
    (∀ res, normalize_dates parse df = .ok res →
      (validate_dataframe res).1 = false →
      run_pipeline parse today df =
        .error (.schemaError (validate_dataframe res).2)) := by
  refine ⟨?_, ?_, ?_, ?_⟩
  · intro h
    unfold validate_dataframe
    rw [h]
  · intro h
    unfold validate_dataframe
    have hf : REQUIRED_COLUMNS.filter (fun c => !(df.colNames.contains c)) =
        [] := by
      refine List.filter_eq_nil_iff.mpr (fun c hc => ?_)
      simp [h c hc]
    rw [hf]
    rfl
  · intro hop h
    unfold validate_dataframe
    have e1 := List.elem_eq_true_of_mem (h "permit_id" (by decide) (by decide))
    have e2 := List.elem_eq_true_of_mem (h "state" (by decide) (by decide))
    have e3 := List.elem_eq_true_of_mem
      (h "county_parish" (by decide) (by decide))
    have e4 := List.elem_eq_true_of_mem (h "well_name" (by decide) (by decide))
    have e5 := List.elem_eq_true_of_mem
      (h "permit_type" (by decide) (by decide))
    have e6 := List.elem_eq_true_of_mem (h "status" (by decide) (by decide))
    have e7 := List.elem_eq_true_of_mem
      (h "application_date" (by decide) (by decide))
    have e8 := List.elem_eq_true_of_mem
      (h "approval_date" (by decide) (by decide))
    have e9 := List.elem_eq_true_of_mem
      (h "expiration_date" (by decide) (by decide))
    have eop : df.colNames.contains "operator" = false := by
      by_cases hc : df.colNames.contains "operator" = true
      · exact absurd (List.mem_of_elem_eq_true hc) hop
      · simpa using hc
    simp only [REQUIRED_COLUMNS, List.filter_cons, List.filter_nil,
      e1, e2, e3, e4, e5, e6, e7, e8, e9, eop]
    rfl
  · intro res hok hbad
    unfold run_pipeline
    rw [hok]
    dsimp only
    rw [if_neg (by rw [hbad]; exact Bool.false_ne_true)]

/-- A concrete nine-column frame missing exactly `operator`. -/
def dfMissingOperator : DataFrame :=
  ⟨0, [("permit_id", []), ("state", []), ("county_parish", []),
    ("well_name", []), ("permit_type", []), ("status", []),
    ("application_date", []), ("approval_date", []),
    ("expiration_date", [])]⟩

/-- **C6, witness.**  The validation claims at concrete frames: the
canonical empty frame validates cleanly; the frame missing exactly
`operator` fails naming only `operator`, and the whole pipeline on it
halts with that schema error (no metric computed). -/
theorem C6_validation_witness :
    validate_dataframe emptyRequiredFrame = (true, []) ∧
    validate_dataframe dfMissingOperator = (false, ["operator"]) ∧
    run_pipeline (fun _ => none) 20000 dfMissingOperator =
      .error (.schemaError ["operator"]) := by
  refine ⟨(C6_validation (fun _ => none) 20000 emptyRequiredFrame
      emptyRequiredFrame).2.1 (by decide),
    (C6_validation (fun _ => none) 20000 dfMissingOperator
      dfMissingOperator).2.2.1 (by decide) (by decide), ?_⟩
  have h := (C6_validation (fun _ => none) 20000 dfMissingOperator
    dfMissingOperator).2.2.2 dfMissingOperator (by rfl) (by decide)
  exact h

/-! ## Claim C8 -/

/-- The combined effect of the three date-coercion assignments on a frame,
i.e. the value `normalize_dates` produces whenever it does not raise. -/
def coerceDateCols (parse : String → Option Int) (df : DataFrame) :
    DataFrame :=
  DATE_COLS.foldl
    (fun acc c => acc.setCol c ((acc.getColD c).map (coerceDate parse))) df

theorem PyHeap.get_set_self (h : PyHeap) (r : Nat) (df : DataFrame)
    (hr : r < h.store.length) : (h.set r df).get r = df := by
  unfold PyHeap.get PyHeap.set
  simp [List.getD, List.getElem?_set_self hr]

theorem PyHeap.set_set (h : PyHeap) (r : Nat) (df1 df2 : DataFrame) :
    (h.set r df1).set r df2 = h.set r df2 := by
  unfold PyHeap.set
  rw [List.set_set]

theorem PyHeap.set_get_self (h : PyHeap) (r : Nat)
    (hr : r < h.store.length) : h.set r (h.get r) = h := by
  unfold PyHeap.get PyHeap.set
  congr 1
  rw [List.getD_eq_getElem h.store default hr]
  apply List.ext_getElem?
  intro j
  by_cases hj : j = r
  · subst hj
    rw [List.getElem?_set_self hr]
    exact (List.getElem?_eq_getElem hr).symm
  · rw [List.getElem?_set_ne (fun e => hj e.symm)]

theorem normalize_dates_step_ok (parse : String → Option Int)
    (df : DataFrame) (c : String) (h : c ∈ df.colNames) :
    normalize_dates_step parse df c =
      .ok (df.setCol c ((df.getColD c).map (coerceDate parse))) := by
  unfold normalize_dates_step
  rw [if_pos (List.elem_eq_true_of_mem h)]

theorem foldlM_cons_ok (parse : String → Option Int) (df d1 : DataFrame)
    (c : String) (rest : List String)
    (h : normalize_dates_step parse df c = .ok d1) :
    (c :: rest).foldlM (normalize_dates_step parse) df =
      rest.foldlM (normalize_dates_step parse) d1 := by
  simp only [List.foldlM_cons, h]
  rfl

theorem foldlM_cons_err (parse : String → Option Int) (df : DataFrame)
    (c : String) (e : String) (rest : List String)
    (h : normalize_dates_step parse df c = .error e) :
    (c :: rest).foldlM (normalize_dates_step parse) df = .error e := by
  simp only [List.foldlM_cons, h]
  rfl

theorem normalize_dates_ok_of_cols (parse : String → Option Int)
    (df : DataFrame) (h1 : "application_date" ∈ df.colNames)
    (h2 : "approval_date" ∈ df.colNames)
    (h3 : "expiration_date" ∈ df.colNames) :
    normalize_dates parse df = .ok (coerceDateCols parse df) := by
  unfold normalize_dates coerceDateCols DATE_COLS
  set X1 := df.setCol "application_date"
    ((df.getColD "application_date").map (coerceDate parse)) with hX1
  have n1 : X1.colNames = df.colNames := by
    rw [hX1, colNames_setCol, if_pos h1]
  set X2 := X1.setCol "approval_date"
    ((X1.getColD "approval_date").map (coerceDate parse)) with hX2
  have n2 : X2.colNames = df.colNames := by
    rw [hX2, colNames_setCol, n1, if_pos h2]
  set X3 := X2.setCol "expiration_date"
    ((X2.getColD "expiration_date").map (coerceDate parse)) with hX3
  rw [foldlM_cons_ok parse df X1 _ _ (normalize_dates_step_ok parse df _ h1),
    foldlM_cons_ok parse X1 X2 _ _
      (normalize_dates_step_ok parse X1 _ (n1 ▸ h2)),
    foldlM_cons_ok parse X2 X3 _ _
      (normalize_dates_step_ok parse X2 _ (n2 ▸ h3))]
  simp only [List.foldlM_nil, List.foldl_cons, List.foldl_nil]
  rfl

theorem normalize_dates_go_ok (parse : String → Option Int) (r : Nat)
    (cols : List String) :
    ∀ (h : PyHeap), r < h.store.length →
    ∀ df', cols.foldlM (normalize_dates_step parse) (h.get r) = .ok df' →
    normalize_dates_go parse r cols h = (h.set r df', .ok r) := by
  induction cols with
  | nil =>
      intro h hr df' hok
      simp only [List.foldlM_nil] at hok
      have he : h.get r = df' := by
        exact Except.ok.inj hok
      rw [normalize_dates_go, ← he, PyHeap.set_get_self h r hr]
  | cons c rest ih =>
      intro h hr df' hok
      cases hstep : normalize_dates_step parse (h.get r) c with
      | error e =>
          rw [foldlM_cons_err parse _ c e rest hstep] at hok
          exact absurd hok (by simp)
      | ok d1 =>
          rw [foldlM_cons_ok parse _ d1 _ _ hstep] at hok
          rw [normalize_dates_go, hstep]
          show normalize_dates_go parse r rest (h.set r d1) =
            (h.set r df', Except.ok r)
          have hr1 : r < (h.set r d1).store.length := by
            unfold PyHeap.set
            rw [List.length_set]
            exact hr
          have hok1 : rest.foldlM (normalize_dates_step parse)
              ((h.set r d1).get r) = .ok df' := by
            rw [PyHeap.get_set_self h r d1 hr]
            exact hok
          rw [ih (h.set r d1) hr1 df' hok1, PyHeap.set_set]

theorem normalize_dates_call_ok (parse : String → Option Int) (h : PyHeap)
    (r : Nat) (hr : r < h.store.length) (df' : DataFrame)
    (hok : normalize_dates parse (h.get r) = .ok df') :
    normalize_dates_call parse h r = (h.set r df', .ok r) :=
  normalize_dates_go_ok parse r DATE_COLS h hr df' hok

theorem coerceDateCols_dates (parse : String → Option Int) (df : DataFrame) :
    ((coerceDateCols parse df).getColD "application_date" =
      (df.getColD "application_date").map (coerceDate parse)) ∧
    ((coerceDateCols parse df).getColD "approval_date" =
      (df.getColD "approval_date").map (coerceDate parse)) ∧
    ((coerceDateCols parse df).getColD "expiration_date" =
      (df.getColD "expiration_date").map (coerceDate parse)) := by
  refine ⟨?_, ?_, ?_⟩ <;>
    (unfold coerceDateCols DATE_COLS
     simp only [List.foldl_cons, List.foldl_nil]
     simp (disch := decide) only [getColD_setCol_self, getColD_setCol_ne])

theorem coerceDateCols_other (parse : String → Option Int) (df : DataFrame)
    (c : String) (h : ¬ c ∈ DATE_COLS) :
    (coerceDateCols parse df).getColD c = df.getColD c := by
  simp only [DATE_COLS, List.mem_cons, List.not_mem_nil, or_false,
    not_or] at h
  obtain ⟨e1, e2, e3⟩ := h
  unfold coerceDateCols DATE_COLS
  simp only [List.foldl_cons, List.foldl_nil]
  rw [getColD_setCol_ne _ _ _ _ e3, getColD_setCol_ne _ _ _ _ e2,
    getColD_setCol_ne _ _ _ _ e1]

/-- A concrete one-row frame with all three date columns, one of them
holding an unparseable string. -/
def dfDates : DataFrame :=
  ⟨1, [("application_date", [.str "bogus"]), ("approval_date", [.na]),
    ("expiration_date", [.date 20100])]⟩

/-- **C8, counterexample.**  `normalize_dates` is not side-effect free: on a
concrete heap holding one frame with an unparseable `application_date`, the
call succeeds but the caller's batch object afterwards differs from what it
was before the call — the coercion was performed in place on it. -/
theorem C8_counterexample :
    (normalize_dates_call (fun _ => none) ⟨[dfDates]⟩ 0).2 = .ok 0 ∧
    ¬ (normalize_dates_call (fun _ => none) ⟨[dfDates]⟩ 0).1.get 0 =
      dfDates := by
  exact ⟨rfl, by decide⟩

/-- **C8 (amended).**  Date normalization parses the three date columns,
coercing any cell whose parse fails to null rather than raising, and leaves
every other column untouched; but it is not free of side effects: the call
mutates the caller's batch object in place, returning the same reference,
whose object is then exactly the annotated batch. -/
theorem C8_amended (parse : String → Option Int) (h : PyHeap) (r : Nat)
    (df : DataFrame) :
    (r < h.store.length → ∀ df', normalize_dates parse (h.get r) = .ok df' →
      normalize_dates_call parse h r = (h.set r df', .ok r)) ∧
    ("application_date" ∈ df.colNames → "approval_date" ∈ df.colNames →
      "expiration_date" ∈ df.colNames →
      normalize_dates parse df = .ok (coerceDateCols parse df)) ∧
    ((coerceDateCols parse df).getColD "expiration_date" =
      (df.getColD "expiration_date").map (coerceDate parse)) ∧
    (∀ c, ¬ c ∈ DATE_COLS →
      (coerceDateCols parse df).getColD c = df.getColD c) ∧
    (∀ s, parse s = none → coerceDate parse (.str s) = .na) ∧
    (∀ s d, parse s = some d → coerceDate parse (.str s) = .date d) ∧
    (coerceDate parse .na = .na) := by
  refine ⟨fun hr df' hok => normalize_dates_call_ok parse h r hr df' hok,
    fun h1 h2 h3 => normalize_dates_ok_of_cols parse df h1 h2 h3,
    (coerceDateCols_dates parse df).2.2,
    fun c hc => coerceDateCols_other parse df c hc,
    fun s hs => ?_, fun s d hs => ?_, rfl⟩
  · show (match parse s with
      | some d => Value.date d
      | none => Value.na) = Value.na
    rw [hs]
  · show (match parse s with
      | some d => Value.date d
      | none => Value.na) = Value.date d
    rw [hs]

/-- **C8 (amended), witness.**  All parts of `C8_amended` at the concrete
one-frame heap: the call rewrites the caller's object to the coerced frame
and returns reference 0; the unparseable string became null and the intact
date survived. -/
theorem C8_amended_witness :
    (normalize_dates_call (fun _ => none) ⟨[dfDates]⟩ 0 =
      (PyHeap.set ⟨[dfDates]⟩ 0 (coerceDateCols (fun _ => none) dfDates),
        .ok 0)) ∧
    ((coerceDateCols (fun _ => none) dfDates).getColD "expiration_date" =
      (dfDates.getColD "expiration_date").map
        (coerceDate (fun _ => none))) ∧
    (coerceDate (fun _ => none) (.str "bogus") = .na) := by
  refine ⟨?_, (C8_amended (fun _ => none) ⟨[dfDates]⟩ 0 dfDates).2.2.1,
    (C8_amended (fun _ => none) ⟨[dfDates]⟩ 0 dfDates).2.2.2.2.1 "bogus"
      rfl⟩
  exact (C8_amended (fun _ => none) ⟨[dfDates]⟩ 0 dfDates).1 (by decide)
    (coerceDateCols (fun _ => none) dfDates)
    ((C8_amended (fun _ => none) ⟨[dfDates]⟩ 0 dfDates).2.1 (by decide)
      (by decide) (by decide))

/-! ## Claim C10 -/

theorem alookup_mem {α β : Type} [DecidableEq α] (l : List (α × β)) (n : α)
    (v : β) (h : alookup l n = some v) : (n, v) ∈ l := by
  induction l with
  | nil => exact absurd h (by simp [alookup])
  | cons c t ih =>
      by_cases hc : c.1 = n
      · simp only [alookup, if_pos hc] at h
        obtain rfl := Option.some.inj h
        subst hc
        exact List.mem_cons_self ..
      · simp only [alookup, if_neg hc] at h
        exact List.mem_cons_of_mem _ (ih h)

theorem alookup_none_not_mem {α β : Type} [DecidableEq α]
    (l : List (α × β)) (n : α) (h : alookup l n = none) :
    n ∉ l.map Prod.fst := by
  induction l with
  | nil => simp
  | cons c t ih =>
      by_cases hc : c.1 = n
      · simp [alookup, hc] at h
      · simp only [alookup, if_neg hc] at h
        simp only [List.map_cons, List.mem_cons]
        rintro (rfl | hm2)
        · exact hc rfl
        · exact ih h hm2

theorem getColD_length_of_mem (df : DataFrame) (n : String)
    (hwf : df.WF) (h : n ∈ df.colNames) :
    (df.getColD n).length = df.nrows := by
  unfold DataFrame.getColD
  cases hl : alookup df.columns n with
  | none => exact absurd h (alookup_none_not_mem df.columns n hl)
  | some vs =>
      exact hwf (n, vs) (alookup_mem df.columns n vs hl)

theorem WF_setCol (df : DataFrame) (n : String) (vs : List Value)
    (hwf : df.WF) (hlen : vs.length = df.nrows) :
    (df.setCol n vs).WF := by
  unfold DataFrame.setCol
  by_cases h : n ∈ df.colNames
  · rw [if_pos h]
    intro c hc
    obtain ⟨c0, hc0, he⟩ := List.mem_map.mp hc
    by_cases h0 : c0.1 = n
    · rw [if_pos h0] at he
      subst he
      exact hlen
    · rw [if_neg h0] at he
      subst he
      exact hwf c0 hc0
  · rw [if_neg h]
    intro c hc
    rcases List.mem_append.mp hc with hc1 | hc1
    · exact hwf c hc1
    · obtain rfl := List.mem_singleton.mp hc1
      exact hlen

theorem WF_fillnaCol (df : DataFrame) (n : String) (v : Value)
    (hwf : df.WF) (h : n ∈ df.colNames) : (fillnaCol df n v).WF := by
  unfold fillnaCol
  refine WF_setCol df n _ hwf ?_
  rw [List.length_map]
  exact getColD_length_of_mem df n hwf h

theorem find_alias_column_mem (df : DataFrame) (al : List String)
    (src : String) (h : find_alias_column df al = some src) :
    src ∈ df.colNames := by
  unfold find_alias_column at h
  obtain ⟨cand, _, hlc⟩ := List.exists_of_findSome?_eq_some h
  unfold lookupNormColumn at hlc
  exact (List.mem_filter.mp (List.mem_of_mem_getLast? hlc)).1

theorem resolveOne_length (df : DataFrame) (hwf : df.WF)
    (al : List String) : (resolveOne df al).length = df.nrows := by
  unfold resolveOne
  cases hf : find_alias_column df al with
  | none => exact List.length_replicate ..
  | some src =>
      exact getColD_length_of_mem df src hwf
        (find_alias_column_mem df al src hf)

theorem WF_resolve_foldl (df : DataFrame) (hwf : df.WF)
    (l : List (String × List String)) :
    ∀ acc : DataFrame, acc.WF → acc.nrows = df.nrows →
      (l.foldl (fun a p => a.setCol p.1 (resolveOne df p.2)) acc).WF := by
  induction l with
  | nil => intro acc hacc _; exact hacc
  | cons p t ih =>
      intro acc hacc hn
      rw [List.foldl_cons]
      refine ih _ (WF_setCol acc p.1 _ hacc ?_) (by rw [nrows_setCol, hn])
      rw [resolveOne_length df hwf p.2, hn]

theorem WF_resolveAliases (df : DataFrame) (hwf : df.WF) :
    (resolveAliases df).WF := by
  unfold resolveAliases
  exact WF_resolve_foldl df hwf COLUMN_ALIASES ⟨df.nrows, []⟩
    (by intro c hc; exact absurd hc (by simp)) rfl

theorem WF_applyFallbacks (out : DataFrame) (fb : String) (hwf : out.WF)
    (hn : out.colNames = REQUIRED_COLUMNS) : (applyFallbacks out fb).WF := by
  unfold applyFallbacks
  dsimp only
  have h1 := colNames_fillnaCol_req out "state" (.str fb) hn (by decide)
  have h2 := colNames_fillnaCol_req _ "status" (.str "Pending") h1 (by decide)
  have h3 := colNames_fillnaCol_req _ "permit_type" (.str "Unknown") h2
    (by decide)
  have h4 := colNames_fillnaCol_req _ "operator" (.str "Unknown Operator") h3
    (by decide)
  have h5 := colNames_fillnaCol_req _ "county_parish" (.str "Unknown") h4
    (by decide)
  refine WF_fillnaCol _ _ _ (WF_fillnaCol _ _ _ (WF_fillnaCol _ _ _
    (WF_fillnaCol _ _ _ (WF_fillnaCol _ _ _ (WF_fillnaCol _ _ _ hwf ?_) ?_)
      ?_) ?_) ?_) ?_
  · rw [hn]; decide
  · rw [h1]; decide
  · rw [h2]; decide
  · rw [h3]; decide
  · rw [h4]; decide
  · rw [h5]; decide

theorem WF_applySynthesis (out : DataFrame) (fb : String) (hwf : out.WF) :
    (applySynthesis out fb).WF := by
  unfold applySynthesis
  split
  · refine WF_setCol out _ _ hwf ?_
    unfold autoIds
    rw [List.length_map, List.length_range]
  · exact hwf

theorem WF_harmonize_schema (df : DataFrame) (fb : String) (hwf : df.WF) :
    (harmonize_schema df fb).WF := by
  unfold harmonize_schema
  exact WF_applySynthesis _ fb
    (WF_applyFallbacks _ fb (WF_resolveAliases df hwf)
      (colNames_resolveAliases df))

theorem nrows_coerceDateCols (parse : String → Option Int)
    (df : DataFrame) : (coerceDateCols parse df).nrows = df.nrows := by
  unfold coerceDateCols DATE_COLS
  simp only [List.foldl_cons, List.foldl_nil, nrows_setCol]

theorem nrows_ingest_harmonize (parse : String → Option Int) (now : Value)
    (df : DataFrame) (fb : String) :
    (IngestJob.harmonize_schema parse now df fb).nrows = df.nrows := by
  unfold IngestJob.harmonize_schema
  dsimp only
  simp only [List.foldl_cons, List.foldl_nil, nrows_setCol,
    nrows_applySynthesis, nrows_applyFallbacks, nrows_resolveAliases]

theorem normalize_dates_step_err (parse : String → Option Int)
    (df : DataFrame) (c : String) (h : ¬ c ∈ df.colNames) :
    normalize_dates_step parse df c = .error c := by
  unfold normalize_dates_step
  exact if_neg (fun hc => h (List.mem_of_elem_eq_true hc))

theorem normalize_dates_ok_inv (parse : String → Option Int)
    (df df' : DataFrame) (h : normalize_dates parse df = .ok df') :
    df' = coerceDateCols parse df := by
  by_cases h1 : "application_date" ∈ df.colNames
  · by_cases h2 : "approval_date" ∈ df.colNames
    · by_cases h3 : "expiration_date" ∈ df.colNames
      · rw [normalize_dates_ok_of_cols parse df h1 h2 h3] at h
        exact (Except.ok.inj h).symm
      · exfalso
        unfold normalize_dates DATE_COLS at h
        rw [foldlM_cons_ok parse df _ _ _
          (normalize_dates_step_ok parse df _ h1)] at h
        have n1 : (df.setCol "application_date"
            ((df.getColD "application_date").map
              (coerceDate parse))).colNames = df.colNames := by
          rw [colNames_setCol, if_pos h1]
        rw [foldlM_cons_ok parse _ _ _ _
          (normalize_dates_step_ok parse _ _ (n1 ▸ h2))] at h
        have n2 : ((df.setCol "application_date"
            ((df.getColD "application_date").map
              (coerceDate parse))).setCol "approval_date"
            (((df.setCol "application_date"
              ((df.getColD "application_date").map
                (coerceDate parse))).getColD "approval_date").map
              (coerceDate parse))).colNames = df.colNames := by
          rw [colNames_setCol, n1, if_pos h2]
        rw [foldlM_cons_err parse _ _ _ _
          (normalize_dates_step_err parse _ _ (fun hm => h3 (n2 ▸ hm)))] at h
        exact Except.noConfusion h
    · exfalso
      unfold normalize_dates DATE_COLS at h
      rw [foldlM_cons_ok parse df _ _ _
        (normalize_dates_step_ok parse df _ h1)] at h
      have n1 : (df.setCol "application_date"
          ((df.getColD "application_date").map
            (coerceDate parse))).colNames = df.colNames := by
        rw [colNames_setCol, if_pos h1]
      rw [foldlM_cons_err parse _ _ _ _
        (normalize_dates_step_err parse _ _ (fun hm => h2 (n1 ▸ hm)))] at h
      exact Except.noConfusion h
  · exfalso
    unfold normalize_dates DATE_COLS at h
    rw [foldlM_cons_err parse df _ _ _
      (normalize_dates_step_err parse df _ h1)] at h
    exact Except.noConfusion h

theorem getColD_applySynthesis_ne (out : DataFrame) (fb : String)
    (m : String) (h : ¬ m = "permit_id") :
    (applySynthesis out fb).getColD m = out.getColD m := by
  unfold applySynthesis
  split
  · rw [getColD_setCol_ne _ _ _ _ h]
  · rfl

theorem getColD_applyFallbacks_cases (out : DataFrame) (fb : String) :
    ((applyFallbacks out fb).getColD "state" =
      (out.getColD "state").map (fillna (.str fb))) ∧
    ((applyFallbacks out fb).getColD "status" =
      (out.getColD "status").map (fillna (.str "Pending"))) ∧
    ((applyFallbacks out fb).getColD "permit_type" =
      (out.getColD "permit_type").map (fillna (.str "Unknown"))) ∧
    ((applyFallbacks out fb).getColD "operator" =
      (out.getColD "operator").map (fillna (.str "Unknown Operator"))) ∧
    ((applyFallbacks out fb).getColD "county_parish" =
      (out.getColD "county_parish").map (fillna (.str "Unknown"))) ∧
    ((applyFallbacks out fb).getColD "well_name" =
      (out.getColD "well_name").map (fillna (.str "Unknown Well"))) ∧
    ((applyFallbacks out fb).getColD "application_date" =
      out.getColD "application_date") ∧
    ((applyFallbacks out fb).getColD "approval_date" =
      out.getColD "approval_date") ∧
    ((applyFallbacks out fb).getColD "expiration_date" =
      out.getColD "expiration_date") := by
  refine ⟨?_, ?_, ?_, ?_, ?_, ?_, ?_, ?_, ?_⟩ <;>
    (unfold applyFallbacks
     dsimp only
     simp (disch := decide) only [getColD_fillnaCol_self,
       getColD_fillnaCol_ne])

/-- **C10.**  Every core transformation preserves the number and order of
records: both harmonizers and the date-coercion stage keep the row count;
`normalize_dates` (when it returns) only maps the three date columns
cell-by-cell in place and leaves every other column untouched — the i-th
output record derives from the i-th input record; and each harmonized
column is either a pointwise (index-aligned) map of its resolved source
column or the index-generated synthesized identifier list — records are
never dropped, duplicated, or reordered.  With a well-formed input, the
harmonized output is well-formed (every column again has exactly as many
cells as the input has rows). -/
theorem C10_record_preservation (parse : String → Option Int) (now : Value)
    (df : DataFrame) (fb : String) :
    ((harmonize_schema df fb).nrows = df.nrows) ∧
    ((IngestJob.harmonize_schema parse now df fb).nrows = df.nrows) ∧
    (∀ df', normalize_dates parse df = .ok df' →
      df' = coerceDateCols parse df ∧ df'.nrows = df.nrows) ∧
    (∀ c ∈ DATE_COLS, (coerceDateCols parse df).getColD c =
      (df.getColD c).map (coerceDate parse)) ∧
    (∀ c, ¬ c ∈ DATE_COLS →
      (coerceDateCols parse df).getColD c = df.getColD c) ∧
    (df.WF → (harmonize_schema df fb).WF) ∧
    (∀ p ∈ COLUMN_ALIASES,
      (harmonize_schema df fb).getColD p.1 = autoIds fb df.nrows ∨
      ∃ f : Value → Value,
        (harmonize_schema df fb).getColD p.1 = (resolveOne df p.2).map f) := by
  refine ⟨nrows_harmonize_schema df fb, nrows_ingest_harmonize parse now df fb,
    fun df' h => ⟨normalize_dates_ok_inv parse df df' h, by
      rw [normalize_dates_ok_inv parse df df' h, nrows_coerceDateCols]⟩,
    fun c hc => ?_, fun c hc => coerceDateCols_other parse df c hc,
    fun hwf => WF_harmonize_schema df fb hwf, fun p hp => ?_⟩
  · simp only [DATE_COLS, List.mem_cons, List.not_mem_nil, or_false] at hc
    rcases hc with rfl | rfl | rfl
    · exact (coerceDateCols_dates parse df).1
    · exact (coerceDateCols_dates parse df).2.1
    · exact (coerceDateCols_dates parse df).2.2
  · simp only [COLUMN_ALIASES, List.mem_cons, List.not_mem_nil,
      or_false] at hp
    have hsyn := getColD_applySynthesis_permit
      (applyFallbacks (resolveAliases df) fb) fb
    obtain hp | hp | hp | hp | hp | hp | hp | hp | hp | hp := hp
    · subst hp
      unfold harmonize_schema
      rw [hsyn, getColD_applyFallbacks_permit,
        getColD_resolveAliases df _
          ["permit_id", "permit_number", "permit_no", "api_number", "api"] (by decide), nrows_applyFallbacks,
        nrows_resolveAliases]
      by_cases hc : (resolveOne df
          ["permit_id", "permit_number", "permit_no", "api_number",
            "api"]).all Value.isna = true
      · exact Or.inl (if_pos hc)
      · exact Or.inr ⟨id, by rw [if_neg hc, List.map_id]⟩
    · subst hp
      unfold harmonize_schema
      rw [getColD_applySynthesis_ne _ _ _ (by decide),
        (getColD_applyFallbacks_cases _ fb).1,
        getColD_resolveAliases df _
          ["state", "jurisdiction"] (by decide)]
      exact Or.inr ⟨fillna (.str fb), rfl⟩
    · subst hp
      unfold harmonize_schema
      rw [getColD_applySynthesis_ne _ _ _ (by decide),
        (getColD_applyFallbacks_cases _ fb).2.2.2.1,
        getColD_resolveAliases df _
          ["operator", "operator_name", "company", "organization"] (by decide)]
      exact Or.inr ⟨fillna (.str "Unknown Operator"), rfl⟩
    · subst hp
      unfold harmonize_schema
      rw [getColD_applySynthesis_ne _ _ _ (by decide),
        (getColD_applyFallbacks_cases _ fb).2.2.2.2.1,
        getColD_resolveAliases df _
          ["county_parish", "county", "parish", "location"] (by decide)]
      exact Or.inr ⟨fillna (.str "Unknown"), rfl⟩
    · subst hp
      unfold harmonize_schema
      rw [getColD_applySynthesis_ne _ _ _ (by decide),
        (getColD_applyFallbacks_cases _ fb).2.2.2.2.2.1,
        getColD_resolveAliases df _
          ["well_name", "well", "wellbore_name", "lease_well_name"] (by decide)]
      exact Or.inr ⟨fillna (.str "Unknown Well"), rfl⟩
    · subst hp
      unfold harmonize_schema
      rw [getColD_applySynthesis_ne _ _ _ (by decide),
        (getColD_applyFallbacks_cases _ fb).2.2.1,
        getColD_resolveAliases df _
          ["permit_type", "well_type", "drill_type", "permit_category"] (by decide)]
      exact Or.inr ⟨fillna (.str "Unknown"), rfl⟩
    · subst hp
      unfold harmonize_schema
      rw [getColD_applySynthesis_ne _ _ _ (by decide),
        (getColD_applyFallbacks_cases _ fb).2.1,
        getColD_resolveAliases df _
          ["status", "permit_status", "approval_status"] (by decide)]
      exact Or.inr ⟨fillna (.str "Pending"), rfl⟩
    · subst hp
      unfold harmonize_schema
      rw [getColD_applySynthesis_ne _ _ _ (by decide),
        (getColD_applyFallbacks_cases _ fb).2.2.2.2.2.2.1,
        getColD_resolveAliases df _
          ["application_date", "application_dt", "filed_date", "submitted_date"] (by decide)]
      exact Or.inr ⟨id, (List.map_id _).symm⟩
    · subst hp
      unfold harmonize_schema
      rw [getColD_applySynthesis_ne _ _ _ (by decide),
        (getColD_applyFallbacks_cases _ fb).2.2.2.2.2.2.2.1,
        getColD_resolveAliases df _
          ["approval_date", "approved_date", "approval_dt", "issue_date"] (by decide)]
      exact Or.inr ⟨id, (List.map_id _).symm⟩
    · subst hp
      unfold harmonize_schema
      rw [getColD_applySynthesis_ne _ _ _ (by decide),
        (getColD_applyFallbacks_cases _ fb).2.2.2.2.2.2.2.2,
        getColD_resolveAliases df _
          ["expiration_date", "expiry_date", "expiration_dt", "expires_on"] (by decide)]
      exact Or.inr ⟨id, (List.map_id _).symm⟩

/-- **C10, witness.**  The record-preservation facts at a concrete one-row
frame: coercion keeps the single row, the harmonized output is well-formed,
and the `state` column is a pointwise map of its resolved source. -/
theorem C10_record_preservation_witness :
    ((coerceDateCols (fun _ => none) dfDates).nrows = dfDates.nrows) ∧
    ((harmonize_schema dfDates "TX").WF) ∧
    ((harmonize_schema dfDates "TX").getColD "state" =
      autoIds "TX" dfDates.nrows ∨
      ∃ f : Value → Value, (harmonize_schema dfDates "TX").getColD "state" =
        (resolveOne dfDates ["state", "jurisdiction"]).map f) := by
  refine ⟨?_, ?_, ?_⟩
  · exact ((C10_record_preservation (fun _ => none) (.date 0) dfDates
      "TX").2.2.1 (coerceDateCols (fun _ => none) dfDates) rfl).2
  · exact (C10_record_preservation (fun _ => none) (.date 0) dfDates
      "TX").2.2.2.2.2.1 (by unfold DataFrame.WF; decide)
  · exact (C10_record_preservation (fun _ => none) (.date 0) dfDates
      "TX").2.2.2.2.2.2 ("state", ["state", "jurisdiction"]) (by decide)

/-! ## Claim C3 -/

theorem load_live_foldl (fetch : String → String → Except String DataFrame)
    (l : List (String × String)) :
    ∀ acc : List DataFrame × List String,
      l.foldl (load_live_step fetch) acc =
        (acc.1 ++ l.filterMap (sourceBatch fetch),
         acc.2 ++ l.filterMap (sourceIssue fetch)) := by
  induction l with
  | nil => intro acc; simp
  | cons s t ih =>
      intro acc
      rw [List.foldl_cons, ih]
      unfold load_live_step sourceBatch sourceIssue
      by_cases hu : s.2 = ""
      · simp [hu]
      · cases hf : fetch s.2 s.1 with
        | ok dfr => simp [hu, hf]
        | error e => simp [hu, hf]

/-- **C3.**  The ingestion coordinator processes its source list in order
and never raises (it is a total function of the per-source fetch results):
each source independently contributes either its "{state} source URL is
empty." issue (empty URL, skipped before any fetch), its
"{state} fetch failed: {cause}" issue (fetch raised, caught and recorded),
or its successful batch — so one source's failure never prevents the
processing of the remaining sources; the issue list and the success list
are exactly the per-source results in source order; if no source
succeeded the result is the canonical empty frame (the ten canonical
columns, zero rows) with the full issue list, and otherwise it is the
row-wise concatenation of the successful batches in source order with
the issue list. -/
theorem C3_load_live (fetch : String → String → Except String DataFrame)
    (tx la : String) :
    (∀ sources : List (String × String),
      sources.foldl (load_live_step fetch) ([], []) =
        (sources.filterMap (sourceBatch fetch),
         sources.filterMap (sourceIssue fetch))) ∧
    ((load_live_data fetch tx la).2 =
      [("TX", tx), ("LA", la)].filterMap (sourceIssue fetch)) ∧
    ((load_live_data fetch tx la).1 =
      if ([("TX", tx), ("LA", la)].filterMap (sourceBatch fetch)).isEmpty
      then emptyRequiredFrame
      else concatFrames
        ([("TX", tx), ("LA", la)].filterMap (sourceBatch fetch))) ∧
    emptyRequiredFrame.colNames = REQUIRED_COLUMNS ∧
    emptyRequiredFrame.nrows = 0 := by
  refine ⟨fun sources => by
      rw [load_live_foldl fetch sources ([], [])]
      simp, ?_, ?_, by decide, rfl⟩ <;>
    (unfold load_live_data
     rw [load_live_foldl fetch _ ([], [])]
     simp
     split <;> rfl)

/-! ## Claim C4 -/

instance {ε α : Type} [DecidableEq ε] [DecidableEq α] :
    DecidableEq (Except ε α) := fun a b =>
  match a, b with
  | .ok x, .ok y =>
      if h : x = y then .isTrue (by rw [h])
      else .isFalse (fun e => h (Except.ok.inj e))
  | .error x, .error y =>
      if h : x = y then .isTrue (by rw [h])
      else .isFalse (fun e => h (Except.error.inj e))
  | .ok _, .error _ => .isFalse (fun e => Except.noConfusion e)
  | .error _, .ok _ => .isFalse (fun e => Except.noConfusion e)

/-- A stub network: every URL answers 200 with a one-row CSV body. -/
def netStub : String → Response := fun _ => ⟨200, "text/csv", [99]⟩

def readCsvStub : List Nat → Except String DataFrame :=
  fun _ => .ok ⟨1, [("permit_id", [.str "T-1"])]⟩

def jsonLoadsStub : List Nat → Except String Json :=
  fun _ => .error "not json"

/-- First fetch of ("u", "TX") at t = 0 on an empty cache. -/
def c4_first : CacheState × Except String DataFrame :=
  fetch_remote_permits netStub jsonLoadsStub readCsvStub ⟨[], []⟩ 0 "u" "TX"

/-- Second fetch of the same key at t = 10 s, inside the one-hour TTL. -/
def c4_second : CacheState × Except String DataFrame :=
  fetch_remote_permits netStub jsonLoadsStub readCsvStub c4_first.1 10
    "u" "TX"

/-- **C4 (the code at the failing input).**  Two successful fetches for the
same (url, jurisdiction) within the TTL window issue exactly TWO network
calls, not one: the cache does work (the second fetch returns the cached
batch and adds no network call), but the body of `fetch_remote_permits`
calls `requests.get` twice on its one cache miss (app.py:146-147, the
first response is discarded).  After whole-cache invalidation the next
fetch issues fresh network calls (two more, for the same reason). -/
theorem C4_two_fetches_two_calls :
    c4_second.1.calls.length = 2 ∧
    ¬ c4_second.1.calls.length = 1 ∧
    c4_second.2 = c4_first.2 ∧
    c4_second.1.calls = c4_first.1.calls ∧
    (fetch_remote_permits netStub jsonLoadsStub readCsvStub
      (fetch_remote_permits_clear c4_second.1) 20
      "u" "TX").1.calls.length = 4 := by
  decide

/-! ## Claim C7 -/

theorem unwrap_data (fields : List (String × Json)) (v : Json)
    (h : alookup fields "data" = some v) :
    unwrapPayload (.obj fields) = v := by
  show (match ["data", "results", "features", "items"].findSome?
      (fun k => alookup fields k) with
    | some v => v
    | none => Json.obj fields) = v
  rw [List.findSome?_cons, h]

theorem unwrap_results (fields : List (String × Json)) (v : Json)
    (h1 : alookup fields "data" = none)
    (h2 : alookup fields "results" = some v) :
    unwrapPayload (.obj fields) = v := by
  show (match ["data", "results", "features", "items"].findSome?
      (fun k => alookup fields k) with
    | some v => v
    | none => Json.obj fields) = v
  rw [List.findSome?_cons, h1, List.findSome?_cons, h2]

theorem unwrap_features (fields : List (String × Json)) (v : Json)
    (h1 : alookup fields "data" = none)
    (h2 : alookup fields "results" = none)
    (h3 : alookup fields "features" = some v) :
    unwrapPayload (.obj fields) = v := by
  show (match ["data", "results", "features", "items"].findSome?
      (fun k => alookup fields k) with
    | some v => v
    | none => Json.obj fields) = v
  rw [List.findSome?_cons, h1, List.findSome?_cons, h2,
    List.findSome?_cons, h3]

theorem unwrap_items (fields : List (String × Json)) (v : Json)
    (h1 : alookup fields "data" = none)
    (h2 : alookup fields "results" = none)
    (h3 : alookup fields "features" = none)
    (h4 : alookup fields "items" = some v) :
    unwrapPayload (.obj fields) = v := by
  show (match ["data", "results", "features", "items"].findSome?
      (fun k => alookup fields k) with
    | some v => v
    | none => Json.obj fields) = v
  rw [List.findSome?_cons, h1, List.findSome?_cons, h2,
    List.findSome?_cons, h3, List.findSome?_cons, h4]

theorem unwrap_no_wrapper (fields : List (String × Json))
    (h1 : alookup fields "data" = none)
    (h2 : alookup fields "results" = none)
    (h3 : alookup fields "features" = none)
    (h4 : alookup fields "items" = none) :
    unwrapPayload (.obj fields) = .obj fields := by
  show (match ["data", "results", "features", "items"].findSome?
      (fun k => alookup fields k) with
    | some v => v
    | none => Json.obj fields) = Json.obj fields
  rw [List.findSome?_cons, h1, List.findSome?_cons, h2,
    List.findSome?_cons, h3, List.findSome?_cons, h4]
  rfl

theorem decodeRecords_length (elems : List Json) :
    ∀ records, decodeRecords elems = some records →
      records.length = elems.length := by
  induction elems with
  | nil =>
      intro records h
      obtain rfl := Option.some.inj h
      rfl
  | cons j rest ih =>
      intro records h
      cases j with
      | obj fields =>
          cases hr : decodeRecords rest with
          | none => rw [decodeRecords, hr] at h; exact Option.noConfusion h
          | some rs =>
              rw [decodeRecords, hr] at h
              obtain rfl := Option.some.inj h
              simp [ih rs hr]
      | null => exact Option.noConfusion h
      | bool b => exact Option.noConfusion h
      | num n => exact Option.noConfusion h
      | str s => exact Option.noConfusion h
      | arr l => exact Option.noConfusion h

theorem json_normalize_nrows (elems : List Json) (df : DataFrame)
    (h : json_normalize elems = .ok df) : df.nrows = elems.length := by
  unfold json_normalize at h
  cases hr : decodeRecords elems with
  | none => rw [hr] at h; exact Except.noConfusion h
  | some records =>
      rw [hr] at h
      obtain rfl := (Except.ok.inj h).symm
      exact decodeRecords_length elems records hr

theorem pdDataFrame_colNames (fields : List (String × Json))
    (df : DataFrame) (h0 : pdDataFrame (.obj fields) = .ok df) :
    df.colNames = fields.map Prod.fst := by
  have h : pdDataFrameObj fields = .ok df := h0
  unfold pdDataFrameObj at h
  split at h
  · exact Except.noConfusion h
  · split at h
    · exact Except.noConfusion h
    · split at h
      · obtain rfl := (Except.ok.inj h).symm
        simp [DataFrame.colNames]
      · exact Except.noConfusion h

/-- **C7, counterexample.**  A JSON mapping with no wrapper key is *not*
treated as one record: the payload `{"a": [1, 2]}` decodes to a two-row
column-oriented frame (pandas `DataFrame`-of-dict semantics), and the
all-scalar payload `{"a": 1}` raises rather than becoming a single
record. -/
theorem C7_counterexample :
    (response_to_dataframe
        (fun _ => .ok (Json.obj [("a", Json.arr [Json.num 1, Json.num 2])]))
        readCsvStub [0] "application/json" =
      .ok ⟨2, [("a", [.int 1, .int 2])]⟩) ∧
    ¬ (∀ df, response_to_dataframe
        (fun _ => .ok (Json.obj [("a", Json.arr [Json.num 1, Json.num 2])]))
        readCsvStub [0] "application/json" = .ok df → df.nrows = 1) ∧
    (response_to_dataframe (fun _ => .ok (Json.obj [("a", Json.num 1)]))
        readCsvStub [0] "application/json" =
      .error "If using all scalar values, you must pass an index") := by
  refine ⟨rfl, fun hall => ?_, rfl⟩
  have h2 := hall ⟨2, [("a", [.int 1, .int 2])]⟩ rfl
  exact absurd h2 (by decide)

/-- **C7 (amended).**  The decoder dispatches on the declared content type:
anything whose content type does not mention JSON is parsed as delimited
tabular text with a header row (`pd.read_csv`); for JSON payloads the
decoder descends into the value of the first present wrapper key among
`data`, `results`, `features`, `items`, in that order; a top-level
sequence is used directly as the record sequence (one row per record); a
top-level mapping with none of the wrapper keys is handed to the
column-oriented tabular constructor — its keys become the columns and
sequence values the column data (an all-scalar mapping is an error) —
rather than being treated as a single record. -/
theorem C7_amended (jl : List Nat → Except String Json)
    (csv : List Nat → Except String DataFrame) (content : List Nat)
    (ct : String) :
    (strContains ct "json" = false →
      response_to_dataframe jl csv content ct = csv content) ∧
    (∀ fields v, alookup fields "data" = some v →
      unwrapPayload (.obj fields) = v) ∧
    (∀ fields v, alookup fields "data" = none →
      alookup fields "results" = some v →
      unwrapPayload (.obj fields) = v) ∧
    (∀ fields v, alookup fields "data" = none →
      alookup fields "results" = none →
      alookup fields "features" = some v →
      unwrapPayload (.obj fields) = v) ∧
    (∀ fields v, alookup fields "data" = none →
      alookup fields "results" = none →
      alookup fields "features" = none →
      alookup fields "items" = some v →
      unwrapPayload (.obj fields) = v) ∧
    (strContains ct "json" = true → ∀ elems,
      jl content = .ok (.arr elems) →
      response_to_dataframe jl csv content ct = json_normalize elems) ∧
    (∀ elems df, json_normalize elems = .ok df → df.nrows = elems.length) ∧
    (strContains ct "json" = true → ∀ fields,
      jl content = .ok (.obj fields) →
      alookup fields "data" = none → alookup fields "results" = none →
      alookup fields "features" = none → alookup fields "items" = none →
      response_to_dataframe jl csv content ct = pdDataFrame (.obj fields)) ∧
    (∀ fields df, pdDataFrame (.obj fields) = .ok df →
      df.colNames = fields.map Prod.fst) := by
  refine ⟨fun h => ?_, unwrap_data, unwrap_results, unwrap_features,
    unwrap_items, fun h elems hok => ?_, json_normalize_nrows,
    fun h fields hok h1 h2 h3 h4 => ?_, pdDataFrame_colNames⟩
  · unfold response_to_dataframe
    rw [if_neg (by rw [h]; exact Bool.false_ne_true)]
  · unfold response_to_dataframe
    rw [if_pos h, hok]
    rfl
  · unfold response_to_dataframe
    rw [if_pos h, hok]
    show (match unwrapPayload (.obj fields) with
      | Json.arr elems => json_normalize elems
      | p => pdDataFrame p) = pdDataFrame (.obj fields)
    rw [unwrap_no_wrapper fields h1 h2 h3 h4]

/-- **C7 (amended), witness.**  The decoder claims at concrete inputs:
CSV dispatch, the `results` wrapper chosen when `data` is absent, a
top-level two-element sequence yielding a two-row frame, and a wrapperless
mapping going through the column-oriented constructor with its keys as
columns. -/
theorem C7_amended_witness :
    (response_to_dataframe jsonLoadsStub readCsvStub [0] "text/csv" =
      readCsvStub [0]) ∧
    (unwrapPayload (.obj [("results", Json.num 7)]) = Json.num 7) ∧
    (response_to_dataframe
        (fun _ => .ok (Json.arr [Json.obj [("a", Json.num 1)],
          Json.obj [("a", Json.num 2)]]))
        readCsvStub [0] "application/json" =
      json_normalize [Json.obj [("a", Json.num 1)],
        Json.obj [("a", Json.num 2)]]) ∧
    (∀ df, json_normalize [Json.obj [("a", Json.num 1)],
        Json.obj [("a", Json.num 2)]] = .ok df → df.nrows = 2) ∧
    (response_to_dataframe
        (fun _ => .ok (Json.obj [("a", Json.arr [Json.num 1, Json.num 2])]))
        readCsvStub [0] "application/json" =
      pdDataFrame (.obj [("a", Json.arr [Json.num 1, Json.num 2])])) ∧
    (∀ df, pdDataFrame (.obj [("a", Json.arr [Json.num 1, Json.num 2])]) =
      .ok df → df.colNames = ["a"]) := by
  refine ⟨(C7_amended jsonLoadsStub readCsvStub [0] "text/csv").1 (by decide),
    (C7_amended jsonLoadsStub readCsvStub [0] "text/csv").2.2.1
      [("results", Json.num 7)] (Json.num 7) rfl rfl,
    (C7_amended (fun _ => .ok (Json.arr [Json.obj [("a", Json.num 1)],
        Json.obj [("a", Json.num 2)]])) readCsvStub [0]
      "application/json").2.2.2.2.2.1 (by decide) _ rfl,
    fun df h => (C7_amended jsonLoadsStub readCsvStub [0]
      "application/json").2.2.2.2.2.2.1 _ df h,
    (C7_amended (fun _ => .ok (Json.obj
        [("a", Json.arr [Json.num 1, Json.num 2])])) readCsvStub [0]
      "application/json").2.2.2.2.2.2.2.1 (by decide) _ rfl rfl rfl rfl rfl,
    fun df h => (C7_amended jsonLoadsStub readCsvStub [0]
      "application/json").2.2.2.2.2.2.2.2 _ df h⟩
